import Mathlib

/-!
Shallow embedding of the donation payment-confirmation pipeline
(charge creation, Pix webhook reconciliation, SSE notification hub)
together with proofs about the claims on its specification.

The definitions mirror the JavaScript source:
* `createDonation`, `handlePixWebhook`, `findByTxId` — DonationService
* `Donation.save` — models/Donation.js
* `getPixDetails`, `createImmediatePixCharge` — PixService
* `findByExactCPF` — PartnerService
* `addClient`, `notifyDonationPaid` — SSEService
* `webhookPixRoute` — the POST /pix webhook route

JavaScript runtime values are embedded as follows: a possibly-absent
string is `Option String` (with `none` = `undefined`); a JS number is
`Option ℚ` (with `none` = `NaN`); fallible code returns
`Except JsError`; Firestore is an explicit `Store` value threaded
through the operations; an untyped thrown JS error (`TypeError`, an
HTTP-library error) is `JsError.untyped hasResponse msg` where
`hasResponse` records whether the error object carries a `.response`
field (which the webhook handler's catch block inspects).
-/

namespace Doare

/-- JS truthiness of a possibly-absent string value: `undefined` and `""` are falsy. -/
def jsTruthy : Option String → Bool
  | none => false
  | some s => !(s == "")

/-- JS truthiness conversion of a possibly-absent string used by the
`existsPartner && existsPartner.cim ? existsPartner.cim : null` idiom:
a falsy value collapses to `null` (= `none`). -/
def truthyOr (o : Option String) : Option String :=
  match o with
  | none => none
  | some s => if s == "" then none else some s

/-- JS falsiness of a number (`Option ℚ`, `none` = `NaN`): `NaN` and `0` are falsy. -/
def jsFalsyNum : Option ℚ → Bool
  | none => true
  | some q => q == 0

/-- The JS comparison `x <= 0` on a number; `NaN <= 0` is `false`. -/
def jsNumLeZero : Option ℚ → Bool
  | none => false
  | some q => decide (q ≤ 0)

/-- Numeric value of a decimal digit character. -/
def digitVal (c : Char) : ℕ := c.toNat - 48

/-- JS `parseFloat` on a character list (decimal-notation subset:
optional leading whitespace, optional sign, longest prefix of digits
with an optional fractional part; no digits at all gives `NaN` =
`none`).  The value `±(intPart.fracPart)` is assembled as one exact
rational `mantissa / 10 ^ fracDigits`. -/
def parseFloatChars (cs : List Char) : Option ℚ :=
  let cs₁ := cs.dropWhile (fun c => c == ' ' || c == '\t' || c == '\n' || c == '\r')
  let signAndRest : Bool × List Char :=
    match cs₁ with
    | '-' :: rest => (true, rest)
    | '+' :: rest => (false, rest)
    | _ => (false, cs₁)
  let neg := signAndRest.1
  let intPart := signAndRest.2.takeWhile Char.isDigit
  let afterInt := signAndRest.2.dropWhile Char.isDigit
  let fracPart :=
    match afterInt with
    | '.' :: rest => rest.takeWhile Char.isDigit
    | _ => []
  if intPart.isEmpty && fracPart.isEmpty then none
  else
    let intVal : ℕ := intPart.foldl (fun a c => 10 * a + digitVal c) 0
    let fracVal : ℕ := fracPart.foldl (fun a c => 10 * a + digitVal c) 0
    let mantissa : ℤ := ((intVal * 10 ^ fracPart.length + fracVal : ℕ) : ℤ)
    some (mkRat (if neg then -mantissa else mantissa) (10 ^ fracPart.length))

/-- JS `parseFloat` applied to a possibly-absent string
(`parseFloat(undefined)` is `NaN`). -/
def parseFloatJs : Option String → Option ℚ
  | none => none
  | some s => parseFloatChars s.data

/-- `donorCPF.replace(/\D/g, "")`: keep only the decimal digits. -/
def cleanCPF (s : String) : String :=
  ⟨s.data.filter Char.isDigit⟩

/-- Decidable equality of `Except` results, for evaluating the model
on concrete inputs. -/
instance exceptDecEq {ε α : Type} [DecidableEq ε] [DecidableEq α] :
    DecidableEq (Except ε α) := fun a b =>
  match a, b with
  | .ok x, .ok y =>
    if h : x = y then .isTrue (by rw [h])
    else .isFalse (by intro hh; cases hh; exact h rfl)
  | .error x, .error y =>
    if h : x = y then .isTrue (by rw [h])
    else .isFalse (by intro hh; cases hh; exact h rfl)
  | .ok _, .error _ => .isFalse (by intro hh; cases hh)
  | .error _, .ok _ => .isFalse (by intro hh; cases hh)

/-- The error taxonomy of utils/Errors.js, plus untyped JS errors.
`untyped hasResponse msg` models a raw thrown value (e.g. a `TypeError`
or an HTTP client error); `hasResponse` is whether it has a `.response`
field. -/
inductive JsError where
  | validation (msg : String)
  | notFound (msg : String)
  | database (msg : String)
  | external (msg : String)
  | untyped (hasResponse : Bool) (msg : String)
deriving DecidableEq, Repr

/-- The `message` of a JS error value. -/
def JsError.msg : JsError → String
  | .validation m => m
  | .notFound m => m
  | .database m => m
  | .external m => m
  | .untyped _ m => m

/-- Whether an `Except` result is a thrown `ValidationError`. -/
def isValidationErr {α : Type} : Except JsError α → Bool
  | .error (.validation _) => true
  | _ => false

/-- Whether an `Except` result is a thrown `NotFoundError`. -/
def isNotFoundErr {α : Type} : Except JsError α → Bool
  | .error (.notFound _) => true
  | _ => false

/-- Whether an `Except` result is a thrown `DatabaseError`. -/
def isDatabaseErr {α : Type} : Except JsError α → Bool
  | .error (.database _) => true
  | _ => false

/-- Whether an `Except` result is a thrown `ExternalError`. -/
def isExternalErr {α : Type} : Except JsError α → Bool
  | .error (.external _) => true
  | _ => false

/-- A donation entity (models/Donation.js).  `id` is `none` until the
store assigns one; `createdAt` is `none` while it is still the
server-timestamp sentinel (timestamps are milliseconds as `ℕ`). -/
structure Donation where
  id : Option String
  donorCPF : Option String
  donorName : Option String
  donorCIM : Option String
  amount : Option ℚ
  txId : String
  locId : Option String
  qrCode : Option String
  copyPaste : Option String
  status : String
  createdAt : Option ℕ
deriving DecidableEq, Repr

/-- A partner-registry row (models/Partner.js, the fields used here). -/
structure Partner where
  cpf : String
  name : String
  cim : Option String
deriving DecidableEq, Repr

/-- The Firestore state visible to this pipeline: the `donations`
collection, the `partners` collection, a fresh-document-id counter and
the server clock used for `serverTimestamp()`. -/
structure Store where
  docs : List Donation
  partners : List Partner
  nextId : ℕ
  now : ℕ
deriving DecidableEq, Repr

/-- `PartnerService.findByExactCPF`: first partner whose `cpf` field
equals the argument exactly. -/
def findByExactCPF (cpf : String) (st : Store) : Option Partner :=
  st.partners.find? (fun p => p.cpf == cpf)

/-- `DonationService.findByTxId`: first donation document whose `txId`
field equals the argument. -/
def findByTxId (txId : String) (st : Store) : Option Donation :=
  st.docs.find? (fun d => d.txId == txId)

/-- `Donation.save`: with an `id`, merge-write the instance's fields
over the document with that id (the in-memory `createdAt`, a `Date`,
is written back; a sentinel becomes the server time); without an `id`,
add a new document with a fresh id and server-assigned `createdAt`.
Returns the in-memory instance as mutated by `save` (only `this.id`
is assigned on the add path) together with the new store. -/
def Donation.save (d : Donation) (st : Store) : Donation × Store :=
  match d.id with
  | some _ =>
    let stored : Donation :=
      { d with createdAt := match d.createdAt with
                            | some t => some t
                            | none => some st.now }
    (d, { st with docs := st.docs.map (fun x => if x.id = d.id then stored else x) })
  | none =>
    let newId := "doc" ++ toString st.nextId
    let stored : Donation := { d with id := some newId, createdAt := some st.now }
    ({ d with id := some newId },
     { st with docs := st.docs ++ [stored], nextId := st.nextId + 1 })

/-- The `valor` object of a gateway charge (`valor.original` may be absent). -/
structure EfiValor where
  original : Option String
deriving DecidableEq, Repr

/-- The `devedor` (payer) object of a gateway charge. -/
structure EfiDevedor where
  cpf : Option String
  nome : Option String
deriving DecidableEq, Repr

/-- The `loc` object of a gateway charge. -/
structure EfiLoc where
  id : Option String
deriving DecidableEq, Repr

/-- The authoritative charge record returned by
`efi.pixDetailCharge` (the fields the pipeline reads).  `valor`,
`devedor` and `loc` may each be absent as whole objects. -/
structure EfiCharge where
  txid : String
  status : String
  valor : Option EfiValor
  devedor : Option EfiDevedor
  loc : Option EfiLoc
  location : Option String
  pixCopiaECola : Option String
deriving DecidableEq, Repr

/-- A failure of the raw EFI detail call; `hasResponseData` records
whether `error.response && error.response.data` holds. -/
structure EfiFailure where
  hasResponseData : Bool
  message : String
deriving DecidableEq, Repr

/-- The raw `efi.pixDetailCharge` API, one call per transaction id. -/
def EfiApi := String → Except EfiFailure EfiCharge

/-- `PixService.getPixDetails`: returns the raw authoritative charge;
every failure of the underlying call is wrapped as an `ExternalError`
(with the API's own error text when a response body is available). -/
def getPixDetails (efi : EfiApi) (txId : String) : Except JsError EfiCharge :=
  match efi txId with
  | .ok r => .ok r
  | .error e =>
    if e.hasResponseData then
      .error (.external ("Erro API Efí ao consultar Pix: " ++ e.message))
    else
      .error (.external ("Erro inesperado ao consultar Pix: " ++ e.message))

/-- A single element of the inbound webhook batch (the only field the
pipeline reads from the raw payload is `txid`). -/
structure PixPayload where
  txid : Option String
deriving DecidableEq, Repr

/-- Build the lazily-materialized donation of the webhook handler's
no-record confirmed branch (the `new DonationModel({...})` literal):
authoritative gateway fields, `status = "PAGA"`, server-timestamp
sentinel `createdAt`. -/
def mkLazyDonation (cpf nome cim : Option String) (amt : Option ℚ)
    (det : EfiCharge) : Donation :=
  { id := none
    donorCPF := cpf
    donorName := nome
    donorCIM := cim
    amount := amt
    txId := det.txid
    locId := det.loc.bind (fun l => l.id)
    qrCode := det.location
    copyPaste := det.pixCopiaECola
    status := "PAGA"
    createdAt := none }

/-- The body of `handlePixWebhook`'s `try` block (source lines
120–192): fetch the authoritative charge, read
`efiChargeDetails.valor.original` (a `TypeError` if `valor` is absent),
then apply the decision table.  Returns the handler's `donation`
variable together with the store after any persistence. -/
def handleConfirmation (efi : EfiApi) (txId : String)
    (donation0 : Option Donation) (st : Store) :
    Except JsError (Option Donation × Store) :=
  match getPixDetails efi txId with
  | .error e => .error e
  | .ok det =>
    match det.valor with
    | none =>
      -- `efiChargeDetails.valor.original` on an absent `valor` object
      .error (.untyped false "TypeError: Cannot read properties of undefined")
    | some valor =>
      let officialStatus := det.status
      let valorOriginal := valor.original
      let devedorEfi := det.devedor
      let isPaymentConfirmed := officialStatus == "CONCLUIDA"
      if isPaymentConfirmed then
        match donation0 with
        | some d =>
          if d.status == "PAGA" then .ok (some d, st)
          else
            let upd : Donation := { d with status := "PAGA" }
            let r := upd.save st
            .ok (some r.1, r.2)
        | none =>
          let donorCPFFromEfi := devedorEfi.bind (fun x => x.cpf)
          let donorNameFromEfi := devedorEfi.bind (fun x => x.nome)
          let amountFromEfi := parseFloatJs valorOriginal
          if !jsTruthy donorCPFFromEfi || !jsTruthy donorNameFromEfi ||
              jsFalsyNum amountFromEfi then
            .error (.validation
              "Dados insuficientes ou inválidos da EFI para criar nova doação")
          else
            let existsPartner := donorCPFFromEfi.bind (fun c => findByExactCPF c st)
            let donorCIM := truthyOr (existsPartner.bind (fun p => p.cim))
            let newDonation :=
              mkLazyDonation donorCPFFromEfi donorNameFromEfi donorCIM amountFromEfi det
            let r := newDonation.save st
            .ok (some r.1, r.2)
      else
        match donation0 with
        | some d =>
          if d.status == officialStatus then .ok (some d, st)
          else
            let upd : Donation := { d with status := officialStatus }
            let r := upd.save st
            .ok (some r.1, r.2)
        | none => .ok (none, st)

/-- The `catch` block of `handlePixWebhook` (source lines 193–207):
typed `ValidationError`/`NotFoundError`/`DatabaseError` pass through
unchanged; an error carrying a `.response` becomes an `ExternalError`;
everything else — including an `ExternalError`, which has no
`.response` field — becomes a `DatabaseError` tagged with the
transaction id. -/
def reclassifyWebhookError (txId : String) : JsError → JsError
  | .validation m => .validation m
  | .notFound m => .notFound m
  | .database m => .database m
  | .untyped true m => .external ("Erro ao obter detalhes da cobrança Pix: " ++ m)
  | .untyped false _ => .database ("Erro inesperado ao processar transação " ++ txId)
  | .external _ => .database ("Erro inesperado ao processar transação " ++ txId)

/-- `DonationService.handlePixWebhook`: reject a payload without a
(truthy) `txid`, look up an existing donation by transaction id, then
run the reconciliation step with its error reclassification. -/
def handlePixWebhook (efi : EfiApi) (payload : PixPayload) (st : Store) :
    Except JsError (Option Donation × Store) :=
  match payload.txid with
  | none => .error (.validation "Id de transação ausente no payload do webhook")
  | some txId =>
    if txId == "" then
      .error (.validation "Id de transação ausente no payload do webhook")
    else
      let donation0 := findByTxId txId st
      match handleConfirmation efi txId donation0 st with
      | .ok r => .ok r
      | .error e => .error (reclassifyWebhookError txId e)

/-- The `calendario` object of a gateway create-charge response. -/
structure EfiCal where
  criacao : Option ℕ
deriving DecidableEq, Repr

/-- The charge request body built by `createImmediatePixCharge`
(`devedor.cpf`, `devedor.nome`, and `valor.original`, the latter kept
as the parsed numeric value whose two-decimal rendering is sent). -/
structure PixBody where
  cpf : String
  nome : String
  amountParsed : Option ℚ
deriving DecidableEq, Repr

/-- The create-charge response of the raw `efi.pixCreateCharge` API. -/
structure EfiCreateResponse where
  txid : Option String
  loc : Option EfiLoc
  location : Option String
  pixCopiaECola : Option String
  calendario : Option EfiCal
deriving DecidableEq, Repr

/-- The raw `efi.pixCreateCharge` API: transaction id and request body
to a response or failure. -/
def EfiCreateApi := String → PixBody → Except EfiFailure EfiCreateResponse

/-- The charge-presentation data assembled by
`createImmediatePixCharge`.  Because the source reads
`chargeResponse.loc || chargeResponse.loc.id` and
`chargeResponse.calendario || chargeResponse.calendario.criacao`, the
`locId` and `createdAt` fields hold the whole `loc`/`calendario`
objects when those are present. -/
structure PixChargeOut where
  txId : String
  locId : EfiLoc
  qrCode : String
  copyPaste : String
  createdAt : EfiCal
deriving DecidableEq, Repr

/-- `PixService.createImmediatePixCharge`: build the charge body from
the (already cleaned) payer data, call the gateway, and extract the
essential fields; an absent `loc` or `calendario` object raises a
`TypeError` and a falsy essential field raises the incomplete-response
error, but the unconditional `catch` wraps every failure as an
`ExternalError`.  Alongside the result, the list of `(txid, body)`
calls made to the raw gateway API is returned. -/
def createImmediatePixCharge (efi : EfiCreateApi) (uniqueTxId : String)
    (amount : Option String) (donorCPF donorName : String) :
    Except JsError PixChargeOut × List (String × PixBody) :=
  let pixBody : PixBody :=
    { cpf := donorCPF, nome := donorName, amountParsed := parseFloatJs amount }
  let log := [(uniqueTxId, pixBody)]
  match efi uniqueTxId pixBody with
  | .error e => (.error (.external ("Erro interno ao preparar Pix: " ++ e.message)), log)
  | .ok resp =>
    match resp.loc with
    | none =>
      -- `chargeResponse.loc.id` on an absent `loc`: TypeError, wrapped by the catch
      (.error (.external "Erro interno ao preparar Pix: TypeError"), log)
    | some locObj =>
      match resp.calendario with
      | none =>
        (.error (.external "Erro interno ao preparar Pix: TypeError"), log)
      | some cal =>
        match resp.txid, resp.location, resp.pixCopiaECola with
        | some tx, some qr, some cp =>
          if tx == "" || qr == "" || cp == "" then
            (.error (.external
              "Erro interno ao preparar Pix: Falha ao obter dados Pix essenciais da Efí. Resposta incompleta ou inesperada."),
             log)
          else
            (.ok { txId := tx, locId := locObj, qrCode := qr, copyPaste := cp,
                   createdAt := cal }, log)
        | _, _, _ =>
          (.error (.external
            "Erro interno ao preparar Pix: Falha ao obter dados Pix essenciais da Efí. Resposta incompleta ou inesperada."),
           log)

/-- The caller-supplied input of `createDonation`. -/
structure CreateInput where
  donorCPF : Option String
  amount : Option String
deriving DecidableEq, Repr

/-- The charge-presentation object returned by `createDonation`
(never persisted; `donorCPF` is the caller's raw input string). -/
structure CreateDonationResult where
  donorCPF : String
  donorName : String
  donorCIM : Option String
  amount : Option ℚ
  txId : String
  locId : EfiLoc
  qrCode : String
  copyPaste : String
  status : String
  createdAt : EfiCal
deriving DecidableEq, Repr

/-- `DonationService.createDonation`: validate the input, clean the
tax id, resolve the donor against the partner registry, request a Pix
charge, and return presentation data without persisting anything.
`uniqueTxId` stands for the freshly generated uuid.  The second
component is the list of calls made to the raw create-charge API. -/
def createDonation (efi : EfiCreateApi) (uniqueTxId : String)
    (input : CreateInput) (st : Store) :
    Except JsError CreateDonationResult × List (String × PixBody) :=
  match input.donorCPF, input.amount with
  | some rawCPF, some amountStr =>
    if rawCPF == "" || amountStr == "" then
      (.error (.validation "Todos os campos são obrigatórios!"), [])
    else if jsNumLeZero (parseFloatJs (some amountStr)) then
      (.error (.validation "O valor da doação deve ser maior que 0."), [])
    else
      let cleanedCPF := cleanCPF rawCPF
      if cleanedCPF.length ≠ 11 then
        (.error (.validation "CPF Inválido!"), [])
      else
        match findByExactCPF cleanedCPF st with
        | none => (.error (.notFound "CPF não cadastrado"), [])
        | some partner =>
          let donorName := partner.name
          let donorCIM := partner.cim
          match createImmediatePixCharge efi uniqueTxId (some amountStr) cleanedCPF donorName with
          | (.ok ch, log) =>
            (.ok { donorCPF := rawCPF
                   donorName := donorName
                   donorCIM := donorCIM
                   amount := parseFloatJs (some amountStr)
                   txId := ch.txId
                   locId := ch.locId
                   qrCode := ch.qrCode
                   copyPaste := ch.copyPaste
                   status := "AGUARDANDO_PAGAMENTO"
                   createdAt := ch.createdAt }, log)
          | (.error e, log) =>
            match e with
            | .validation m => (.error (.validation m), log)
            | .database m => (.error (.database m), log)
            | e' => (.error (.external ("Falha ao gerar cobrança Pix: " ++ e'.msg)), log)
  | _, _ => (.error (.validation "Todos os campos são obrigatórios!"), [])

/-- The Notification Hub state (SSEService): the `clients` map from
transaction id to connection, the set of connections with a running
keep-alive interval, and the log of event writes performed
(connection, transaction id of the message). -/
structure SSEState where
  clients : List (String × ℕ)
  activeTimers : List ℕ
  deliveries : List (ℕ × String)
deriving DecidableEq, Repr

/-- `Map.set` semantics on an association list: replace the entry with
this key in place, or append a new entry at the end. -/
def mapSet (k : String) (v : ℕ) : List (String × ℕ) → List (String × ℕ)
  | [] => [(k, v)]
  | (k', v') :: rest => if k' = k then (k, v) :: rest else (k', v') :: mapSet k v rest

/-- `SSEService.addClient`: start a keep-alive interval for the new
connection and store it in the clients map under its transaction id
(replacing any previous subscriber for that id). -/
def addClient (txId : String) (conn : ℕ) (s : SSEState) : SSEState :=
  { s with activeTimers := conn :: s.activeTimers
           clients := mapSet txId conn s.clients }

/-- The `close` handler registered by `addClient` for connection
`conn` subscribed under `txId`: clear that connection's own keep-alive
interval and delete whatever entry the clients map currently holds
under `txId`. -/
def closeClient (txId : String) (conn : ℕ) (s : SSEState) : SSEState :=
  { s with activeTimers := s.activeTimers.erase conn
           clients := s.clients.filter (fun p => !(p.1 == txId)) }

/-- A message of the batch handed to `notifyDonationPaid` by the
webhook route (`{txid, valor, pagador, horario, status}`). -/
structure SSEMsg where
  txid : String
  valor : Option ℚ
  pagador : Option String
  horario : Option ℕ
  status : String
deriving DecidableEq, Repr

/-- `SSEService.notifyDonationPaid`: for each message of the batch,
look up the subscriber registered under its `txid` and write the event
to it; a missing subscriber drops the message silently. -/
def notifyDonationPaid (msgs : List SSEMsg) (s : SSEState) : SSEState :=
  if msgs.isEmpty then s
  else
    msgs.foldl
      (fun acc m =>
        match acc.clients.lookup m.txid with
        | some conn => { acc with deliveries := acc.deliveries ++ [(conn, m.txid)] }
        | none => acc)
      s

/-- The message the webhook route pushes for a confirmed donation. -/
def mkSSEMsg (d : Donation) : SSEMsg :=
  { txid := d.txId
    valor := d.amount
    pagador := d.donorName
    horario := d.createdAt
    status := d.status }

/-- The loop state of the webhook route's per-item `for` loop. -/
structure LoopAcc where
  store : Store
  succ : ℕ
  failed : List String
  msgs : List SSEMsg

/-- One iteration of the webhook route's loop: skip an element whose
`txid` is falsy; otherwise run `handlePixWebhook`, collecting a
message when a paid donation comes back and recording the transaction
id as failed when the handler throws.  A throwing element leaves the
store of the iteration untouched. -/
def processItem (efi : EfiApi) (acc : LoopAcc) (p : PixPayload) : LoopAcc :=
  match p.txid with
  | none => acc
  | some t =>
    if t == "" then acc
    else
      match handlePixWebhook efi p acc.store with
      | .ok r =>
        let msgs' :=
          match r.1 with
          | some d => if d.status == "PAGA" then acc.msgs ++ [mkSSEMsg d] else acc.msgs
          | none => acc.msgs
        { store := r.2, succ := acc.succ + 1, failed := acc.failed, msgs := msgs' }
      | .error _ => { acc with failed := acc.failed ++ [t] }

/-- An HTTP response of the webhook route. -/
structure RouteResponse where
  status : ℕ
  body : String
deriving DecidableEq, Repr

/-- The `POST /pix` webhook route: reject nothing — a missing or empty
`pix` array, per-item failures and malformed items all yield a `200`
with a human-readable summary; confirmed donations collected by the
loop are handed to `notifyDonationPaid` in one batch.  (The route's
top-level `catch` returning `500` is unreachable here: every failure
of the loop body is already absorbed per item.) -/
def webhookPixRoute (efi : EfiApi) (body : Option (List PixPayload))
    (st : Store) (sse : SSEState) : RouteResponse × Store × SSEState :=
  match body with
  | none => (⟨200, "Nenhum dado de notificação processado."⟩, st, sse)
  | some ps =>
    if ps.isEmpty then (⟨200, "Nenhum dado de notificação processado."⟩, st, sse)
    else
      let acc := ps.foldl (processItem efi) ⟨st, 0, [], []⟩
      let sse' := if acc.msgs.isEmpty then sse else notifyDonationPaid acc.msgs sse
      let resp : RouteResponse :=
        if acc.succ > 0 && acc.failed.isEmpty then
          ⟨200, "Pix recebido e processado com sucesso."⟩
        else if acc.succ > 0 then
          ⟨200, "Pix recebido. " ++ toString acc.succ ++
            " processados com sucesso. Falha em " ++ toString acc.failed.length ++
            " transações."⟩
        else
          ⟨200, "Nenhuma notificação Pix válida para processamento encontrada ou todas falharam."⟩
      (resp, acc.store, sse')

/-- An entry-point invocation of the system, for reachability
reasoning: a charge creation, a webhook delivery (with the gateway
behavior in effect for that call), an SSE subscription, or a client
disconnect. -/
inductive SysOp where
  | createOp (efi : EfiCreateApi) (uniqueTxId : String) (input : CreateInput)
  | webhookOp (efi : EfiApi) (body : Option (List PixPayload))
  | subscribeOp (txId : String) (conn : ℕ)
  | disconnectOp (txId : String) (conn : ℕ)

/-- The global mutable state of the system. -/
structure SysState where
  store : Store
  sse : SSEState

/-- Effect of one entry-point invocation on the global state.
`createDonation` only reads the partner registry and returns
presentation data — its code contains no write to the donations
collection, so the store is unchanged. -/
def stepSys : SysOp → SysState → SysState
  | .createOp efi u inp, s =>
    let r := createDonation efi u inp s.store
    let _ := r
    s
  | .webhookOp efi body, s =>
    let r := webhookPixRoute efi body s.store s.sse
    { store := r.2.1, sse := r.2.2 }
  | .subscribeOp t c, s => { s with sse := addClient t c s.sse }
  | .disconnectOp t c, s => { s with sse := closeClient t c s.sse }

/-- Run a sequence of entry-point invocations. -/
def runSys (ops : List SysOp) (s : SysState) : SysState :=
  ops.foldl (fun s' op => stepSys op s') s

/-- The initial state of a process: empty donations collection and no
SSE subscribers, over a given partner registry. -/
def initState (partners : List Partner) : SysState :=
  { store := { docs := [], partners := partners, nextId := 0, now := 0 }
    sse := { clients := [], activeTimers := [], deliveries := [] } }

/-- The (truthy or not) transaction ids carried by the elements of one
invocation's webhook batch; empty for the other entry points. -/
def opObservedTxIds : SysOp → List String
  | .webhookOp _ body => (body.getD []).filterMap (fun p => p.txid)
  | _ => []

/-- All transaction ids for which a webhook was observed in a trace. -/
def observedTxIds (ops : List SysOp) : List String :=
  ops.foldr (fun op acc => opObservedTxIds op ++ acc) []

/-- A well-behaved details gateway: fetching a charge by transaction
id returns a charge carrying that transaction id. -/
def GoodEfi (efi : EfiApi) : Prop :=
  ∀ t det, efi t = .ok det → det.txid = t

/-- Webhook invocations of the trace consult a well-behaved gateway. -/
def GoodOp : SysOp → Prop
  | .webhookOp efi _ => GoodEfi efi
  | _ => True

/-! ## Concrete instances used by counterexamples and witnesses -/

/-- A complete, confirmed (`CONCLUIDA`) authoritative charge for
transaction `tx1`. -/
def cexDet : EfiCharge :=
  { txid := "tx1"
    status := "CONCLUIDA"
    valor := some ⟨some "50.00"⟩
    devedor := some ⟨some "12345678901", some "Jane Doe"⟩
    loc := some ⟨some "L1"⟩
    location := some "qr"
    pixCopiaECola := some "cp" }

/-- A details gateway answering `cexDet` for `tx1`. -/
def cexEfi : EfiApi := fun t =>
  if t == "tx1" then .ok cexDet else .error ⟨false, "charge not found"⟩

/-- A details gateway whose call always fails with an HTTP error
carrying a response body. -/
def cexEfiFail : EfiApi := fun _ => .error ⟨true, "request timeout"⟩

/-- A details gateway returning a confirmed charge whose whole `valor`
object is absent. -/
def cexEfiNoValor : EfiApi := fun _ => .ok { cexDet with valor := none }

/-- An empty donations store with an empty partner registry. -/
def cexStore : Store := { docs := [], partners := [], nextId := 0, now := 100 }

/-- An SSE state with connection `7` subscribed on `tx1`. -/
def cexSSE : SSEState := { clients := [("tx1", 7)], activeTimers := [7], deliveries := [] }

/-- A webhook batch element for `tx1`. -/
def cexPayload : PixPayload := ⟨some "tx1"⟩

/-- The webhook route invoked a first time on the `tx1` confirmed-paid
payload from the empty store. -/
def cexRun1 : RouteResponse × Store × SSEState :=
  webhookPixRoute cexEfi (some [cexPayload]) cexStore cexSSE

/-- The webhook route invoked a second time with the identical payload
on the state left by the first call. -/
def cexRun2 : RouteResponse × Store × SSEState :=
  webhookPixRoute cexEfi (some [cexPayload]) cexRun1.2.1 cexRun1.2.2

/-! ## C1 — idempotent replay -/

/-- C1 (counterexample).  The claim states that replaying the identical
confirmed-paid webhook produces exactly one notification delivery and
that the second call performs no delivery.  On the code, the second
call leaves the store untouched (one persisted `PAGA` record) but the
handler returns the already-paid record, the route therefore pushes it
to the hub again, and the still-registered subscriber receives a
second event: after two identical calls the delivery log has length
two, not one. -/
theorem C1_counterexample :
    (cexRun1.2.1.docs.filter (fun d => d.txId == "tx1" && d.status == "PAGA")).length = 1 ∧
    cexRun2.2.1 = cexRun1.2.1 ∧
    cexRun1.2.2.deliveries = [(7, "tx1")] ∧
    cexRun2.2.2.deliveries = [(7, "tx1"), (7, "tx1")] ∧
    ¬ cexRun2.2.2.deliveries.length = 1 := by decide

/-! ## C3 — reconciliation failure classification (code bug) -/

/-- C3 (divergence evaluation).  When the gateway details call fails,
`getPixDetails` wraps the failure as an `ExternalError`; the handler's
`catch` does not rethrow `ExternalError` and, since an `ExternalError`
instance has no `.response` field, falls through to the final branch
and raises a `DatabaseError` tagged with the transaction id — contrary
to the claim and to the handler's own doc comment, which promise an
`ExternalError` for a failed details call. -/
theorem C3_gateway_failure_database_error :
    handlePixWebhook cexEfiFail cexPayload cexStore =
      .error (.database "Erro inesperado ao processar transação tx1") ∧
    isExternalErr (handlePixWebhook cexEfiFail cexPayload cexStore) = false := by decide

/-! ## C4 — lazy-creation rejection -/

/-- C4 (counterexample).  The claim includes the case where the whole
`valor` (amount) object is absent from the gateway response among the
`ValidationError` cases.  On the code, reading
`efiChargeDetails.valor.original` then throws a `TypeError`, which the
`catch` wraps as a `DatabaseError` (it is untyped and has no
`.response`), not a `ValidationError`; no record is created either
way. -/
theorem C4_counterexample :
    isDatabaseErr (handlePixWebhook cexEfiNoValor cexPayload cexStore) = true ∧
    isValidationErr (handlePixWebhook cexEfiNoValor cexPayload cexStore) = false ∧
    (webhookPixRoute cexEfiNoValor (some [cexPayload]) cexStore cexSSE).2.1 = cexStore := by
  decide

/-! ## C9 — subscriber-registry teardown -/

/-- C9 (counterexample).  Connection `1` subscribes under `"t"`,
connection `2` replaces it, then connection `1` closes.  The claim
states that the entry currently stored under `"t"` is removed *and its
keep-alive timer cleared*, including when that entry belongs to the
newer connection.  On the code, the close handler clears the *closing*
connection's own timer and deletes the current entry: the entry of
connection `2` is removed, but its keep-alive timer keeps running
(`activeTimers = [2]`), so the removed entry's timer is not cleared. -/
theorem C9_counterexample :
    (closeClient "t" 1 (addClient "t" 2 (addClient "t" 1 ⟨[], [], []⟩))).clients = [] ∧
    (closeClient "t" 1 (addClient "t" 2 (addClient "t" 1 ⟨[], [], []⟩))).activeTimers = [2] ∧
    ¬ (2 ∉ (closeClient "t" 1 (addClient "t" 2 (addClient "t" 1 ⟨[], [], []⟩))).activeTimers) := by
  decide

/-! ## SSE registry lemmas -/

/-- Keys of the clients map after a `Map.set`: unchanged when the key
was present, the key appended when it was not. -/
theorem keys_mapSet (k : String) (v : ℕ) (l : List (String × ℕ)) :
    (mapSet k v l).map Prod.fst =
      if k ∈ l.map Prod.fst then l.map Prod.fst else l.map Prod.fst ++ [k] := by
  induction l with
  | nil => simp [mapSet]
  | cons hd tl ih =>
    by_cases h : hd.1 = k
    · cases hd
      simp_all [mapSet]
    · cases hd with
      | mk k' v' =>
        simp only at h
        simp only [mapSet, if_neg h, List.map_cons, ih]
        by_cases hk : k ∈ tl.map Prod.fst <;>
          simp [hk, List.mem_cons, Ne.symm h]

/-- `Map.set` preserves distinctness of the registry's keys. -/
theorem nodup_keys_mapSet (k : String) (v : ℕ) (l : List (String × ℕ))
    (h : (l.map Prod.fst).Nodup) : ((mapSet k v l).map Prod.fst).Nodup := by
  rw [keys_mapSet]
  by_cases hk : k ∈ l.map Prod.fst
  · simpa [hk]
  · simp [hk, List.nodup_append, h]

/-- Looking up the key just set returns the new connection. -/
theorem lookup_mapSet (k : String) (v : ℕ) (l : List (String × ℕ)) :
    (mapSet k v l).lookup k = some v := by
  induction l with
  | nil => simp [mapSet, List.lookup]
  | cons hd tl ih =>
    cases hd with
    | mk k' v' =>
      by_cases h : k' = k
      · simp [mapSet, h, List.lookup]
      · have hkk : (k == k') = false := beq_eq_false_iff_ne.mpr (fun hh => h hh.symm)
        simp [mapSet, h, List.lookup, hkk, ih]

/-- After deleting a key, looking it up returns nothing. -/
theorem lookup_filter_ne (t : String) (l : List (String × ℕ)) :
    (l.filter (fun p => !(p.1 == t))).lookup t = none := by
  induction l with
  | nil => rfl
  | cons hd tl ih =>
    cases hd with
    | mk k' v' =>
      by_cases h : k' = t
      · simp [List.filter_cons, h, ih]
      · have h1 : (k' == t) = false := beq_eq_false_iff_ne.mpr h
        have h2 : (t == k') = false := beq_eq_false_iff_ne.mpr (fun hh => h hh.symm)
        simp [List.filter_cons, h1, List.lookup, h2, ih]

/-- `notifyDonationPaid` only appends to the delivery log: the clients
map is untouched. -/
theorem notify_clients_eq (msgs : List SSEMsg) (s : SSEState) :
    (notifyDonationPaid msgs s).clients = s.clients := by
  unfold notifyDonationPaid
  split
  · rfl
  · suffices h : ∀ (ms : List SSEMsg) (s' : SSEState),
        (ms.foldl (fun acc m =>
          match acc.clients.lookup m.txid with
          | some conn => { acc with deliveries := acc.deliveries ++ [(conn, m.txid)] }
          | none => acc) s').clients = s'.clients by
      exact h msgs s
    intro ms
    induction ms with
    | nil => intro s'; rfl
    | cons m rest ih =>
      intro s'
      simp only [List.foldl_cons]
      rw [ih]
      cases s'.clients.lookup m.txid <;> rfl

/-- The webhook route never changes the subscriber registry. -/
theorem route_clients_eq (efi : EfiApi) (body : Option (List PixPayload))
    (st : Store) (sse : SSEState) :
    (webhookPixRoute efi body st sse).2.2.clients = sse.clients := by
  unfold webhookPixRoute
  cases body with
  | none => rfl
  | some ps =>
    simp only
    split
    · rfl
    · simp only
      split
      · rfl
      · exact notify_clients_eq _ _

/-- C9 (amended).  The registry keeps at most one subscriber per
transaction id in every reachable state (a later subscribe for the
same id replaces the earlier entry and yields the new connection on
lookup); closing a connection previously subscribed under a txId
removes whatever entry currently sits under that txId and clears the
*closing* connection's own keep-alive timer — only that timer is
erased, so a newer replacing connection's timer keeps running. -/
theorem C9_amended :
    (∀ (ops : List SysOp) (P : List Partner),
       (((runSys ops (initState P)).sse.clients.map Prod.fst)).Nodup) ∧
    (∀ (s : SSEState) (t : String) (c : ℕ),
       (addClient t c s).clients.lookup t = some c) ∧
    (∀ (s : SSEState) (t : String) (c : ℕ),
       (closeClient t c s).clients.lookup t = none ∧
       (closeClient t c s).activeTimers = s.activeTimers.erase c) := by
  refine ⟨?_, ?_, ?_⟩
  · intro ops P
    suffices h : ∀ (s : SysState), ((s.sse.clients.map Prod.fst)).Nodup →
        (((runSys ops s).sse.clients.map Prod.fst)).Nodup by
      exact h (initState P) (by simp [initState])
    induction ops with
    | nil => intro s hs; exact hs
    | cons op rest ih =>
      intro s hs
      refine ih (stepSys op s) ?_
      cases op with
      | createOp efi u inp => exact hs
      | webhookOp efi body =>
        simpa [stepSys, route_clients_eq] using hs
      | subscribeOp t c =>
        exact nodup_keys_mapSet t c s.sse.clients hs
      | disconnectOp t c =>
        exact ((List.filter_sublist _).map Prod.fst).nodup hs
  · intro s t c
    exact lookup_mapSet t c s.clients
  · intro s t c
    exact ⟨lookup_filter_ne t s.clients, rfl⟩

/-! ## C6 — webhook endpoint error containment -/

/-- A batch element with a falsy `txid` is skipped by the route loop:
the iteration leaves the loop state unchanged. -/
theorem processItem_skip (efi : EfiApi) (acc : LoopAcc) {p : PixPayload}
    (h : jsTruthy p.txid = false) : processItem efi acc p = acc := by
  unfold processItem
  cases hp : p.txid with
  | none => rfl
  | some t =>
    rw [hp] at h
    have ht : (t == "") = true := by
      revert h; simp only [jsTruthy]; cases t == "" <;> simp
    simp [ht]

/-- C6.  The webhook route answers `200` on every input: a missing or
empty batch, malformed elements and per-item reconciliation failures
are all absorbed (the `500` branch exists only for a top-level error
outside the loop, which no loop outcome can produce).  Moreover a
malformed element (falsy `txid`) is skipped without affecting the
processing of the remaining elements: the resulting store and SSE
state are exactly those of the batch without it. -/
theorem C6_webhook_containment (efi : EfiApi) (st : Store) (sse : SSEState) :
    (∀ body, (webhookPixRoute efi body st sse).1.status = 200) ∧
    (∀ (ps1 ps2 : List PixPayload) (p : PixPayload), jsTruthy p.txid = false →
       (webhookPixRoute efi (some (ps1 ++ p :: ps2)) st sse).2 =
       (webhookPixRoute efi (some (ps1 ++ ps2)) st sse).2) := by
  constructor
  · intro body
    unfold webhookPixRoute
    cases body with
    | none => rfl
    | some ps =>
      split
      · rfl
      · dsimp only
        split_ifs <;> rfl
  · intro ps1 ps2 p h
    have hacc : (ps1 ++ p :: ps2).foldl (processItem efi) ⟨st, 0, [], []⟩ =
        (ps1 ++ ps2).foldl (processItem efi) ⟨st, 0, [], []⟩ := by
      rw [List.foldl_append, List.foldl_append, List.foldl_cons,
        processItem_skip efi _ h]
    unfold webhookPixRoute
    rcases hps : ps1 ++ ps2 with _ | ⟨q, qs⟩
    · rcases ps1 with _ | ⟨a, as⟩
      · rcases ps2 with _ | ⟨b, bs⟩
        · have hfold : List.foldl (processItem efi)
              (⟨st, 0, [], []⟩ : LoopAcc) [p] = ⟨st, 0, [], []⟩ := by
            rw [List.foldl_cons, processItem_skip efi _ h]
            rfl
          simp only [List.nil_append, hfold]
          rfl
        · simp at hps
      · simp at hps
    · have h1 : (ps1 ++ p :: ps2).isEmpty = false := by
        rcases ps1 with _ | ⟨a, as⟩ <;> rfl
      have h2 : (ps1 ++ ps2).isEmpty = false := by rw [hps]; rfl
      rw [← hps]
      simp only [h1, h2, Bool.false_eq_true, if_false, hacc]

/-- Witness for C6: a concrete batch whose malformed head (no `txid`)
is skipped, with the tail still processed. -/
theorem C6_witness :
    (webhookPixRoute cexEfi (some [⟨none⟩, cexPayload]) cexStore cexSSE).1.status = 200 ∧
    (webhookPixRoute cexEfi (some ([] ++ (⟨none⟩ : PixPayload) :: [cexPayload]))
        cexStore cexSSE).2 =
      (webhookPixRoute cexEfi (some ([] ++ [cexPayload])) cexStore cexSSE).2 :=
  ⟨(C6_webhook_containment cexEfi cexStore cexSSE).1 (some [⟨none⟩, cexPayload]),
   (C6_webhook_containment cexEfi cexStore cexSSE).2 [] [cexPayload] ⟨none⟩ (by decide)⟩

/-! ## C8 — implicit zero-amount rejection on lazy materialization -/

/-- C8.  A confirmed-paid webhook with no prior record whose gateway
amount string parses to `0` or to `NaN` fails with `ValidationError`
even though the amount field is syntactically present: the presence
guard `!amountFromEfi` treats a falsy parsed amount as missing.  No
record is created (the route's store is unchanged). -/
theorem C8_zero_amount_rejection (efi : EfiApi) (p : PixPayload) (st : Store)
    (t : String) (det : EfiCharge) (v : EfiValor) (s : String)
    (hp : p.txid = some t) (ht : t ≠ "")
    (hfind : findByTxId t st = none)
    (hefi : efi t = .ok det) (hst : det.status = "CONCLUIDA")
    (hv : det.valor = some v) (horig : v.original = some s)
    (hparse : parseFloatChars s.data = some 0 ∨ parseFloatChars s.data = none) :
    isValidationErr (handlePixWebhook efi p st) = true ∧
    ∀ sse, (webhookPixRoute efi (some [p]) st sse).2.1 = st := by
  have ht' : (t == "") = false := beq_eq_false_iff_ne.mpr ht
  have hfalsy : jsFalsyNum (parseFloatJs v.original) = true := by
    rw [horig]
    unfold parseFloatJs
    rcases hparse with h0 | h0 <;> simp [jsFalsyNum, h0]
  have hmain : handlePixWebhook efi p st =
      .error (.validation
        "Dados insuficientes ou inválidos da EFI para criar nova doação") := by
    unfold handlePixWebhook handleConfirmation getPixDetails
    rw [hp]
    simp only [ht', Bool.false_eq_true, if_false, hfind, hefi, hv, hst, hfalsy,
      Bool.or_true, if_true]
    rfl
  constructor
  · rw [hmain]; rfl
  · intro sse
    have hitem : List.foldl (processItem efi) (⟨st, 0, [], []⟩ : LoopAcc) [p] =
        ⟨st, 0, [t], []⟩ := by
      rw [List.foldl_cons, List.foldl_nil]
      unfold processItem
      rw [hp]
      simp only [ht', Bool.false_eq_true, if_false, hmain]
      rfl
    unfold webhookPixRoute
    simp only [List.isEmpty_cons, Bool.false_eq_true, if_false, hitem]

/-- A details gateway answering a confirmed charge whose amount string
is `"0.00"`. -/
def cexEfiZero : EfiApi := fun _ => .ok { cexDet with valor := some ⟨some "0.00"⟩ }

/-- Witness for C8 at the concrete zero-amount gateway response. -/
theorem C8_witness :
    isValidationErr (handlePixWebhook cexEfiZero cexPayload cexStore) = true ∧
    (webhookPixRoute cexEfiZero (some [cexPayload]) cexStore cexSSE).2.1 = cexStore :=
  ⟨(C8_zero_amount_rejection cexEfiZero cexPayload cexStore "tx1"
      { cexDet with valor := some ⟨some "0.00"⟩ } ⟨some "0.00"⟩ "0.00"
      rfl (by decide) (by decide) rfl rfl rfl rfl (by left; decide)).1,
   (C8_zero_amount_rejection cexEfiZero cexPayload cexStore "tx1"
      { cexDet with valor := some ⟨some "0.00"⟩ } ⟨some "0.00"⟩ "0.00"
      rfl (by decide) (by decide) rfl rfl rfl rfl (by left; decide)).2 cexSSE⟩

/-! ## C5 — non-confirming update frame property -/

/-- C5.  For an existing persisted donation and a webhook whose
authoritative status is non-confirmed and differs from the stored one,
the reconciliation overwrites only the `status` field: the handler
persists `{d with status := reported}` in place of the old document
(all other documents untouched), and that record agrees with `d` on
`amount`, `txId`, `createdAt` and every other field. -/
theorem C5_nonconfirming_frame (efi : EfiApi) (p : PixPayload) (st : Store)
    (t : String) (d : Donation) (i : String) (ct : ℕ) (det : EfiCharge) (v : EfiValor)
    (hp : p.txid = some t) (ht : t ≠ "")
    (hfind : findByTxId t st = some d) (hid : d.id = some i) (hct : d.createdAt = some ct)
    (hefi : efi t = .ok det) (hv : det.valor = some v)
    (hnc : det.status ≠ "CONCLUIDA") (hdiff : d.status ≠ det.status) :
    handlePixWebhook efi p st =
      .ok (some { d with status := det.status },
        { st with docs := st.docs.map (fun x =>
            if x.id = some i then { d with status := det.status } else x) }) ∧
    ({ d with status := det.status } : Donation).amount = d.amount ∧
    ({ d with status := det.status } : Donation).txId = d.txId ∧
    ({ d with status := det.status } : Donation).createdAt = d.createdAt ∧
    ({ d with status := det.status } : Donation).donorCPF = d.donorCPF ∧
    ({ d with status := det.status } : Donation).donorName = d.donorName ∧
    ({ d with status := det.status } : Donation).donorCIM = d.donorCIM ∧
    ({ d with status := det.status } : Donation).locId = d.locId ∧
    ({ d with status := det.status } : Donation).qrCode = d.qrCode ∧
    ({ d with status := det.status } : Donation).copyPaste = d.copyPaste := by
  have hb1 : (det.status == "CONCLUIDA") = false := beq_eq_false_iff_ne.mpr hnc
  have hb2 : (d.status == det.status) = false := beq_eq_false_iff_ne.mpr hdiff
  have ht' : (t == "") = false := beq_eq_false_iff_ne.mpr ht
  refine ⟨?_, rfl, rfl, rfl, rfl, rfl, rfl, rfl, rfl, rfl⟩
  unfold handlePixWebhook handleConfirmation getPixDetails Donation.save
  rw [hp]
  simp only [ht', Bool.false_eq_true, if_false, hfind, hefi, hv, hb1, hb2, hid, hct]

/-- A non-confirmed (`ATIVA`) authoritative charge for `tx1`. -/
def cexDetActive : EfiCharge := { cexDet with status := "ATIVA" }

/-- A details gateway answering `cexDetActive`. -/
def cexEfiActive : EfiApi := fun _ => .ok cexDetActive

/-- A stored `AGUARDANDO_PAGAMENTO` donation document for `tx1`. -/
def cexDoc : Donation :=
  { id := some "d1", donorCPF := some "12345678901", donorName := some "Jane Doe",
    donorCIM := none, amount := some 50, txId := "tx1", locId := some "L1",
    qrCode := some "qr", copyPaste := some "cp", status := "AGUARDANDO_PAGAMENTO",
    createdAt := some 42 }

/-- A store holding exactly `cexDoc`. -/
def cexStoreC5 : Store := { docs := [cexDoc], partners := [], nextId := 1, now := 50 }

/-- Witness for C5 at a concrete stored record and `ATIVA` webhook. -/
theorem C5_witness :
    handlePixWebhook cexEfiActive cexPayload cexStoreC5 =
      .ok (some { cexDoc with status := cexDetActive.status },
        { cexStoreC5 with docs := cexStoreC5.docs.map (fun x =>
            if x.id = some "d1" then { cexDoc with status := cexDetActive.status } else x) }) :=
  (C5_nonconfirming_frame cexEfiActive cexPayload cexStoreC5 "tx1" cexDoc "d1" 42
    cexDetActive ⟨some "50.00"⟩ rfl (by decide) (by decide) rfl rfl rfl rfl
    (by decide) (by decide)).1

/-! ## C4 — lazy-creation rejection (amended) -/

/-- When the handler throws on the single element of a batch, the
route records the failure and leaves the store untouched. -/
theorem route_store_of_handler_error (efi : EfiApi) (p : PixPayload) (st : Store)
    (t : String) (e : JsError) (hp : p.txid = some t) (ht : (t == "") = false)
    (hmain : handlePixWebhook efi p st = .error e) :
    ∀ sse, (webhookPixRoute efi (some [p]) st sse).2.1 = st := by
  intro sse
  have hitem : List.foldl (processItem efi) (⟨st, 0, [], []⟩ : LoopAcc) [p] =
      ⟨st, 0, [t], []⟩ := by
    rw [List.foldl_cons, List.foldl_nil]
    unfold processItem
    rw [hp]
    simp only [ht, Bool.false_eq_true, if_false, hmain]
    rfl
  unfold webhookPixRoute
  simp only [List.isEmpty_cons, Bool.false_eq_true, if_false, hitem]

/-- C4 (amended).  For a confirmed-paid webhook whose `txId` has no
prior record: a missing payer tax id, payer name or amount *value*
(whole payer object absent included) raises `ValidationError`; an
absent amount *object* instead raises a `TypeError` that surfaces as
`DatabaseError`.  In both cases no record is created. -/
theorem C4_amended (efi : EfiApi) (p : PixPayload) (st : Store)
    (t : String) (det : EfiCharge)
    (hp : p.txid = some t) (ht : t ≠ "")
    (hfind : findByTxId t st = none)
    (hefi : efi t = .ok det) (hst : det.status = "CONCLUIDA") :
    (det.valor = none →
      isDatabaseErr (handlePixWebhook efi p st) = true ∧
      ∀ sse, (webhookPixRoute efi (some [p]) st sse).2.1 = st) ∧
    (∀ v, det.valor = some v →
      (jsTruthy (det.devedor.bind (fun x => x.cpf)) = false ∨
       jsTruthy (det.devedor.bind (fun x => x.nome)) = false ∨
       v.original = none) →
      isValidationErr (handlePixWebhook efi p st) = true ∧
      ∀ sse, (webhookPixRoute efi (some [p]) st sse).2.1 = st) := by
  have ht' : (t == "") = false := beq_eq_false_iff_ne.mpr ht
  constructor
  · intro hvnone
    have hmain : handlePixWebhook efi p st =
        .error (.database ("Erro inesperado ao processar transação " ++ t)) := by
      unfold handlePixWebhook handleConfirmation getPixDetails
      rw [hp]
      simp only [ht', Bool.false_eq_true, if_false, hfind, hefi, hvnone]
      rfl
    exact ⟨by rw [hmain]; rfl,
      route_store_of_handler_error efi p st t _ hp ht' hmain⟩
  · intro v hv hmiss
    have hguard : (!jsTruthy (det.devedor.bind (fun x => x.cpf)) ||
        !jsTruthy (det.devedor.bind (fun x => x.nome)) ||
        jsFalsyNum (parseFloatJs v.original)) = true := by
      rcases hmiss with h0 | h0 | h0 <;> simp [h0, jsFalsyNum, parseFloatJs]
    have hmain : handlePixWebhook efi p st =
        .error (.validation
          "Dados insuficientes ou inválidos da EFI para criar nova doação") := by
      unfold handlePixWebhook handleConfirmation getPixDetails
      rw [hp]
      simp only [ht', Bool.false_eq_true, if_false, hfind, hefi, hv, hst, hguard,
        if_true]
      rfl
    exact ⟨by rw [hmain]; rfl,
      route_store_of_handler_error efi p st t _ hp ht' hmain⟩

/-- A details gateway whose confirmed charge carries an amount object
without a value (`valor.original` absent). -/
def cexEfiNoOriginal : EfiApi := fun _ => .ok { cexDet with valor := some ⟨none⟩ }

/-- Witness for C4 (amended) at both concrete shapes: whole `valor`
object absent, and `valor.original` value absent. -/
theorem C4_amended_witness :
    (isDatabaseErr (handlePixWebhook cexEfiNoValor cexPayload cexStore) = true ∧
     (webhookPixRoute cexEfiNoValor (some [cexPayload]) cexStore cexSSE).2.1 = cexStore) ∧
    (isValidationErr (handlePixWebhook cexEfiNoOriginal cexPayload cexStore) = true ∧
     (webhookPixRoute cexEfiNoOriginal (some [cexPayload]) cexStore cexSSE).2.1 = cexStore) :=
  ⟨⟨((C4_amended cexEfiNoValor cexPayload cexStore "tx1" { cexDet with valor := none }
        rfl (by decide) (by decide) rfl rfl).1 rfl).1,
    ((C4_amended cexEfiNoValor cexPayload cexStore "tx1" { cexDet with valor := none }
        rfl (by decide) (by decide) rfl rfl).1 rfl).2 cexSSE⟩,
   ⟨((C4_amended cexEfiNoOriginal cexPayload cexStore "tx1" { cexDet with valor := some ⟨none⟩ }
        rfl (by decide) (by decide) rfl rfl).2 ⟨none⟩ rfl (by right; right; rfl)).1,
    ((C4_amended cexEfiNoOriginal cexPayload cexStore "tx1" { cexDet with valor := some ⟨none⟩ }
        rfl (by decide) (by decide) rfl rfl).2 ⟨none⟩ rfl (by right; right; rfl)).2 cexSSE⟩⟩

/-! ## C7 — charge-creation preconditions -/

/-- `createImmediatePixCharge` yields either a successful charge or an
`ExternalError`: its unconditional catch can never produce a
`ValidationError` or a `DatabaseError`. -/
theorem createCharge_errors_external (efi : EfiCreateApi) (u : String)
    (a : Option String) (c n : String) :
    isValidationErr (createImmediatePixCharge efi u a c n).1 = false ∧
    isDatabaseErr (createImmediatePixCharge efi u a c n).1 = false := by
  constructor <;>
  · unfold createImmediatePixCharge
    dsimp only
    repeat first | rfl | split

/-- C7.  `createDonation` fails with `ValidationError` exactly when the
tax id or the amount is missing (falsy), the amount parses to a value
`≤ 0`, or the digits-only form of the tax id is not 11 characters
long; and for well-formed input whose cleaned tax id has no exact
match in the partner registry it fails with `NotFoundError`. -/
theorem C7_create_preconditions (efi : EfiCreateApi) (u : String)
    (input : CreateInput) (st : Store) :
    (isValidationErr (createDonation efi u input st).1 = true ↔
      (jsTruthy input.donorCPF = false ∨ jsTruthy input.amount = false ∨
       jsNumLeZero (parseFloatJs input.amount) = true ∨
       (∃ raw, input.donorCPF = some raw ∧ (cleanCPF raw).length ≠ 11))) ∧
    (∀ raw, input.donorCPF = some raw → jsTruthy input.donorCPF = true →
      jsTruthy input.amount = true →
      jsNumLeZero (parseFloatJs input.amount) = false →
      (cleanCPF raw).length = 11 →
      findByExactCPF (cleanCPF raw) st = none →
      (createDonation efi u input st).1 = .error (.notFound "CPF não cadastrado")) := by
  obtain ⟨cpf?, amt?⟩ := input
  constructor
  · cases cpf? with
    | none => simp [createDonation, isValidationErr, jsTruthy]
    | some rawCPF =>
      cases amt? with
      | none => simp [createDonation, isValidationErr, jsTruthy]
      | some amountStr =>
        by_cases h1 : (rawCPF == "") = true
        · rw [beq_iff_eq] at h1
          simp [createDonation, h1, isValidationErr, jsTruthy]
        · rw [Bool.not_eq_true] at h1
          by_cases h2 : (amountStr == "") = true
          · rw [beq_iff_eq] at h2
            simp [createDonation, h1, h2, isValidationErr, jsTruthy]
          · rw [Bool.not_eq_true] at h2
            by_cases h3 : jsNumLeZero (parseFloatJs (some amountStr)) = true
            · simp [createDonation, h1, h2, h3, isValidationErr, jsTruthy]
            · rw [Bool.not_eq_true] at h3
              by_cases h4 : (cleanCPF rawCPF).length = 11
              · have hval : isValidationErr (createDonation efi u
                    ⟨some rawCPF, some amountStr⟩ st).1 = false := by
                  unfold createDonation
                  simp only [h1, h2, h3, Bool.or_self, Bool.or_false,
                    Bool.false_eq_true, if_false, h4, ne_eq, not_true_eq_false]
                  cases hfp : findByExactCPF (cleanCPF rawCPF) st with
                  | none => rfl
                  | some partner =>
                    dsimp only
                    rcases hcc : createImmediatePixCharge efi u (some amountStr)
                        (cleanCPF rawCPF) partner.name with ⟨res, log⟩
                    have hext := (createCharge_errors_external efi u (some amountStr)
                      (cleanCPF rawCPF) partner.name).1
                    rw [hcc] at hext
                    cases res with
                    | ok ch => rfl
                    | error e =>
                      cases e with
                      | validation m => exact absurd hext (by simp [isValidationErr])
                      | notFound m => rfl
                      | database m => rfl
                      | external m => rfl
                      | untyped b m => rfl
                simp only [hval, Bool.false_eq_true, false_iff, jsTruthy, h1, h2, h3,
                  Bool.not_eq_false]
                push_neg
                refine ⟨by simp [h1], by simp [h2], by simp [h3], ?_⟩
                rintro raw hraw
                cases hraw
                simpa using h4
              · have : ∃ raw, (some rawCPF : Option String) = some raw ∧
                    (cleanCPF raw).length ≠ 11 := ⟨rawCPF, rfl, h4⟩
                simp only [this, or_true, iff_true]
                unfold createDonation
                simp only [h1, h2, h3, Bool.or_self, Bool.or_false,
                  Bool.false_eq_true, if_false, ne_eq, h4, not_false_eq_true, if_true]
                rfl
  · intro raw hraw htr hta hle hlen hfp
    cases hraw
    have h1 : (raw == "") = false := by
      revert htr; simp [jsTruthy]
    obtain ⟨amountStr, hamt⟩ : ∃ a, amt? = some a := by
      cases amt? with
      | none => exact absurd hta (by simp [jsTruthy])
      | some a => exact ⟨a, rfl⟩
    cases hamt
    have h2 : (amountStr == "") = false := by
      revert hta; simp [jsTruthy]
    unfold createDonation
    simp only [h1, h2, hle, Bool.or_self, Bool.or_false, Bool.false_eq_true,
      if_false, ne_eq, hlen, not_true_eq_false, hfp]

/-- A create-charge gateway returning a complete response. -/
def cexCreateEfi : EfiCreateApi := fun _ _ =>
  .ok ⟨some "tx9", some ⟨some "L"⟩, some "qr", some "cp", some ⟨some 5⟩⟩

/-- Witness for C7: a well-formed input whose tax id is not in the
(empty) partner registry fails with `NotFoundError`. -/
theorem C7_witness :
    (createDonation cexCreateEfi "u1" ⟨some "12345678901", some "50"⟩ cexStore).1 =
      .error (.notFound "CPF não cadastrado") :=
  (C7_create_preconditions cexCreateEfi "u1" ⟨some "12345678901", some "50"⟩ cexStore).2
    "12345678901" rfl (by decide) (by decide) (by decide) (by decide) (by decide)

/-! ## C10 — uncleaned tax id in the charge-creation result -/

/-- `createImmediatePixCharge` performs exactly one gateway call, with
the body built from its arguments. -/
theorem createCharge_log (efi : EfiCreateApi) (u : String) (a : Option String)
    (c n : String) :
    (createImmediatePixCharge efi u a c n).2 =
      [(u, { cpf := c, nome := n, amountParsed := parseFloatJs a })] := by
  unfold createImmediatePixCharge
  dsimp only
  repeat first | rfl | split

/-- C10.  Every successful `createDonation` call returns the caller's
input tax id string verbatim in `donorCPF`, while the single charge
request sent to the gateway carries the cleaned digits-only
11-character form; the two differ whenever the input contained a
non-digit character. -/
theorem C10_raw_cpf_result (efi : EfiCreateApi) (u : String) (input : CreateInput)
    (st : Store) (r : CreateDonationResult) (log : List (String × PixBody))
    (h : createDonation efi u input st = (.ok r, log)) :
    ∃ raw body, input.donorCPF = some raw ∧ r.donorCPF = raw ∧
      log = [(u, body)] ∧ body.cpf = cleanCPF raw ∧ (cleanCPF raw).length = 11 ∧
      (∀ c ∈ (cleanCPF raw).data, c.isDigit = true) ∧
      ((∃ c ∈ raw.data, c.isDigit = false) → raw ≠ cleanCPF raw) := by
  obtain ⟨cpf?, amt?⟩ := input
  cases cpf? with
  | none => simp [createDonation] at h
  | some rawCPF =>
    cases amt? with
    | none => simp [createDonation] at h
    | some amountStr =>
      unfold createDonation at h
      by_cases h1 : (rawCPF == "" || amountStr == "") = true
      · simp [h1] at h
      · rw [Bool.not_eq_true] at h1
        by_cases h2 : jsNumLeZero (parseFloatJs (some amountStr)) = true
        · simp [h1, h2] at h
        · rw [Bool.not_eq_true] at h2
          by_cases h3 : (cleanCPF rawCPF).length = 11
          · cases hfp : findByExactCPF (cleanCPF rawCPF) st with
            | none => simp [h1, h2, h3, hfp] at h
            | some partner =>
              rcases hcc : createImmediatePixCharge efi u (some amountStr)
                  (cleanCPF rawCPF) partner.name with ⟨res, lg⟩
              have hlog := createCharge_log efi u (some amountStr)
                (cleanCPF rawCPF) partner.name
              rw [hcc] at hlog
              simp only [h1, h2, Bool.false_eq_true, if_false, ne_eq, h3,
                not_true_eq_false, hfp, hcc] at h
              cases res with
              | error e => cases e <;> simp at h
              | ok ch =>
                dsimp only at h
                rw [Prod.mk.injEq] at h
                obtain ⟨hres, hlg2⟩ := h
                injection hres with h'
                refine ⟨rawCPF,
                  { cpf := cleanCPF rawCPF, nome := partner.name,
                    amountParsed := parseFloatJs (some amountStr) },
                  rfl, ?_, ?_, rfl, h3, ?_, ?_⟩
                · rw [← h']
                · rw [← hlg2]
                  exact hlog
                · intro c hc
                  exact (List.mem_filter.mp hc).2
                · rintro ⟨c, hc, hcd⟩ heqs
                  have hlt : (rawCPF.data.filter Char.isDigit).length <
                      rawCPF.data.length :=
                    List.length_filter_lt_length_iff_exists.mpr ⟨c, hc, by simp [hcd]⟩
                  have hdata : rawCPF.data = rawCPF.data.filter Char.isDigit :=
                    congrArg String.data heqs
                  rw [← hdata] at hlt
                  exact absurd hlt (lt_irrefl _)
          · simp [h1, h2, h3] at h

/-- A store whose partner registry holds the `12345678901` donor. -/
def cexStoreP : Store :=
  { docs := [], partners := [⟨"12345678901", "Jane", some "c1"⟩], nextId := 0, now := 0 }

/-- Witness for C10 at a punctuated tax id input. -/
theorem C10_witness :
    ∃ raw body,
      (⟨some "123.456.789-01", some "50"⟩ : CreateInput).donorCPF = some raw ∧
      ({ donorCPF := "123.456.789-01", donorName := "Jane", donorCIM := some "c1",
         amount := some 50, txId := "tx9", locId := ⟨some "L"⟩, qrCode := "qr",
         copyPaste := "cp", status := "AGUARDANDO_PAGAMENTO",
         createdAt := ⟨some 5⟩ } : CreateDonationResult).donorCPF = raw ∧
      ([("u1", { cpf := "12345678901", nome := "Jane", amountParsed := some 50 })] :
          List (String × PixBody)) = [("u1", body)] ∧
      body.cpf = cleanCPF raw ∧ (cleanCPF raw).length = 11 ∧
      (∀ c ∈ (cleanCPF raw).data, c.isDigit = true) ∧
      ((∃ c ∈ raw.data, c.isDigit = false) → raw ≠ cleanCPF raw) :=
  C10_raw_cpf_result cexCreateEfi "u1" ⟨some "123.456.789-01", some "50"⟩ cexStoreP
    { donorCPF := "123.456.789-01", donorName := "Jane", donorCIM := some "c1",
      amount := some 50, txId := "tx9", locId := ⟨some "L"⟩, qrCode := "qr",
      copyPaste := "cp", status := "AGUARDANDO_PAGAMENTO", createdAt := ⟨some 5⟩ }
    [("u1", { cpf := "12345678901", nome := "Jane", amountParsed := some 50 })]
    (by decide)

/-! ## C2 — lazy materialization invariant -/

/-- A successful `getPixDetails` is a successful raw gateway call. -/
theorem getPixDetails_ok (efi : EfiApi) (t : String) (det : EfiCharge)
    (h : getPixDetails efi t = .ok det) : efi t = .ok det := by
  unfold getPixDetails at h
  cases he : efi t with
  | ok r =>
    rw [he] at h
    dsimp only at h
    injection h with h'
    rw [h']
  | error e =>
    rw [he] at h
    dsimp only at h
    by_cases hb : e.hasResponseData = true
    · rw [if_pos hb] at h; cases h
    · rw [if_neg hb] at h; cases h

/-- `Donation.save` only writes documents whose `txId` was already in
the store or is the saved instance's own. -/
theorem save_docs_txIds (d : Donation) (st : Store) :
    ∀ x ∈ (d.save st).2.docs,
      x.txId ∈ st.docs.map (fun y => y.txId) ∨ x.txId = d.txId := by
  intro x hx
  unfold Donation.save at hx
  cases hd : d.id with
  | some i =>
    rw [hd] at hx
    dsimp only at hx
    rw [List.mem_map] at hx
    obtain ⟨y, hy, rfl⟩ := hx
    by_cases hyi : y.id = some i
    · rw [if_pos hyi]
      right; rfl
    · rw [if_neg hyi]
      left; exact List.mem_map_of_mem _ hy
  | none =>
    rw [hd] at hx
    dsimp only at hx
    rw [List.mem_append] at hx
    rcases hx with hx | hx
    · left; exact List.mem_map_of_mem _ hx
    · rw [List.mem_singleton] at hx
      subst hx
      right; rfl

/-- Reconciliation for transaction `t` only adds or rewrites documents
whose `txId` was already present or equals `t` (for a well-behaved
gateway). -/
theorem handleConfirmation_txIds (efi : EfiApi) (t : String) (st : Store)
    (hgw : GoodEfi efi) (r : Option Donation × Store)
    (h : handleConfirmation efi t (findByTxId t st) st = .ok r) :
    ∀ x ∈ r.2.docs, x.txId ∈ st.docs.map (fun y => y.txId) ∨ x.txId = t := by
  unfold handleConfirmation at h
  cases hg : getPixDetails efi t with
  | error e => rw [hg] at h; dsimp only at h; cases h
  | ok det =>
    rw [hg] at h
    dsimp only at h
    have hdet : det.txid = t := hgw t det (getPixDetails_ok efi t det hg)
    cases hv : det.valor with
    | none => rw [hv] at h; dsimp only at h; cases h
    | some v =>
      rw [hv] at h
      dsimp only at h
      split at h
      · -- confirmed-paid
        cases hfd : findByTxId t st with
        | some d =>
          rw [hfd] at h
          dsimp only at h
          have hdmem : d ∈ st.docs := List.mem_of_find?_eq_some hfd
          split at h
          · injection h with h'
            subst h'
            intro x hx
            left; exact List.mem_map_of_mem _ hx
          · injection h with h'
            subst h'
            intro x hx
            rcases save_docs_txIds _ st x hx with hl | hr
            · left; exact hl
            · left
              exact List.mem_map.mpr ⟨d, hdmem, hr.symm⟩
        | none =>
          rw [hfd] at h
          dsimp only at h
          split at h
          · cases h
          · injection h with h'
            subst h'
            intro x hx
            rcases save_docs_txIds _ st x hx with hl | hr
            · left; exact hl
            · right
              rw [hr]
              exact hdet
      · -- non-confirmed
        cases hfd : findByTxId t st with
        | some d =>
          rw [hfd] at h
          dsimp only at h
          have hdmem : d ∈ st.docs := List.mem_of_find?_eq_some hfd
          split at h
          · injection h with h'
            subst h'
            intro x hx
            left; exact List.mem_map_of_mem _ hx
          · injection h with h'
            subst h'
            intro x hx
            rcases save_docs_txIds _ st x hx with hl | hr
            · left; exact hl
            · left
              exact List.mem_map.mpr ⟨d, hdmem, hr.symm⟩
        | none =>
          rw [hfd] at h
          dsimp only at h
          injection h with h'
          subst h'
          intro x hx
          left; exact List.mem_map_of_mem _ hx

/-- The webhook handler only adds or rewrites documents whose `txId`
was already present or is the payload's own transaction id. -/
theorem handle_txIds (efi : EfiApi) (p : PixPayload) (st : Store)
    (hgw : GoodEfi efi) (r : Option Donation × Store)
    (h : handlePixWebhook efi p st = .ok r) :
    ∀ x ∈ r.2.docs, x.txId ∈ st.docs.map (fun y => y.txId) ∨ p.txid = some x.txId := by
  unfold handlePixWebhook at h
  cases hp : p.txid with
  | none => rw [hp] at h; cases h
  | some t =>
    rw [hp] at h
    dsimp only at h
    by_cases ht : (t == "") = true
    · rw [if_pos ht] at h; cases h
    · rw [Bool.not_eq_true] at ht
      rw [ht] at h
      simp only [Bool.false_eq_true, if_false] at h
      cases hc : handleConfirmation efi t (findByTxId t st) st with
      | error e => rw [hc] at h; cases h
      | ok r' =>
        rw [hc] at h
        injection h with h'
        subst h'
        intro x hx
        rcases handleConfirmation_txIds efi t st hgw r' hc x hx with hl | hr
        · left; exact hl
        · right; rw [hr]

/-- The route loop preserves any property of the stored transaction
ids that also holds of every (truthy or not) `txid` in the batch. -/
theorem foldl_processItem_txIds (efi : EfiApi) (hgw : GoodEfi efi)
    (ps : List PixPayload) (Q : String → Prop) :
    ∀ acc : LoopAcc, (∀ x ∈ acc.store.docs, Q x.txId) →
      (∀ q ∈ ps, ∀ s, q.txid = some s → Q s) →
      ∀ x ∈ (ps.foldl (processItem efi) acc).store.docs, Q x.txId := by
  induction ps with
  | nil => intro acc hacc _ x hx; exact hacc x hx
  | cons q qs ih =>
    intro acc hacc hps x hx
    rw [List.foldl_cons] at hx
    refine ih (processItem efi acc q) ?_
      (fun q' hq' => hps q' (List.mem_cons_of_mem _ hq')) x hx
    intro y hy
    unfold processItem at hy
    cases hq : q.txid with
    | none => rw [hq] at hy; exact hacc y hy
    | some s =>
      rw [hq] at hy
      dsimp only at hy
      by_cases hs : (s == "") = true
      · rw [if_pos hs] at hy; exact hacc y hy
      · rw [Bool.not_eq_true] at hs
        rw [hs] at hy
        simp only [Bool.false_eq_true, if_false] at hy
        cases hh : handlePixWebhook efi q acc.store with
        | ok r =>
          rw [hh] at hy
          dsimp only at hy
          rcases handle_txIds efi q acc.store hgw r hh y hy with hl | hr
          · rw [List.mem_map] at hl
            obtain ⟨z, hz, hzy⟩ := hl
            rw [← hzy]
            exact hacc z hz
          · rw [hq] at hr
            injection hr with hr'
            rw [← hr']
            exact hps q (List.mem_cons_self q qs) s hq
        | error e =>
          rw [hh] at hy
          exact hacc y hy

/-- The webhook route preserves any property of the stored transaction
ids that holds of every `txid` in the inbound batch. -/
theorem route_txIds (efi : EfiApi) (hgw : GoodEfi efi)
    (body : Option (List PixPayload)) (st : Store) (sse : SSEState)
    (Q : String → Prop)
    (hst : ∀ x ∈ st.docs, Q x.txId)
    (hbody : ∀ q ∈ body.getD [], ∀ s, q.txid = some s → Q s) :
    ∀ x ∈ (webhookPixRoute efi body st sse).2.1.docs, Q x.txId := by
  unfold webhookPixRoute
  cases body with
  | none => exact hst
  | some ps =>
    dsimp only
    split
    · exact hst
    · exact foldl_processItem_txIds efi hgw ps Q ⟨st, 0, [], []⟩ hst
        (by simpa using hbody)

/-- The trace invariant: every stored document's `txId` satisfies any
property holding initially and of every observed webhook `txid`. -/
theorem runSys_txIds (ops : List SysOp) :
    ∀ s : SysState, (∀ op ∈ ops, GoodOp op) →
      ∀ Q : String → Prop,
      (∀ x ∈ s.store.docs, Q x.txId) →
      (∀ t ∈ observedTxIds ops, Q t) →
      ∀ x ∈ (runSys ops s).store.docs, Q x.txId := by
  induction ops with
  | nil => intro s _ Q hs _ x hx; exact hs x hx
  | cons op rest ih =>
    intro s hgood Q hs hobs x hx
    have hx' : x ∈ (runSys rest (stepSys op s)).store.docs := hx
    refine ih (stepSys op s) (fun o ho => hgood o (List.mem_cons_of_mem _ ho)) Q ?_
      (fun t ht => hobs t (by
        show t ∈ opObservedTxIds op ++ observedTxIds rest
        exact List.mem_append_right _ ht)) x hx'
    cases op with
    | createOp efi u inp => exact hs
    | subscribeOp t c => exact hs
    | disconnectOp t c => exact hs
    | webhookOp efi body =>
      refine route_txIds efi (hgood _ (List.mem_cons_self _ _)) body s.store s.sse Q hs ?_
      intro q hq s0 hq0
      refine hobs s0 ?_
      show s0 ∈ opObservedTxIds (SysOp.webhookOp efi body) ++ observedTxIds rest
      refine List.mem_append_left _ ?_
      exact List.mem_filterMap.mpr ⟨q, hq, hq0⟩

/-- C2.  In every reachable system state (over a well-behaved details
gateway), every document of the donations collection carries a `txId`
for which a webhook has been observed in the trace; and a
charge-creation invocation leaves the global state — in particular the
donations collection — unchanged (its code performs no store write). -/
theorem C2_lazy_materialization (ops : List SysOp) (prt : List Partner)
    (hgood : ∀ op ∈ ops, GoodOp op) :
    (∀ x ∈ (runSys ops (initState prt)).store.docs, x.txId ∈ observedTxIds ops) ∧
    (∀ (efi : EfiCreateApi) (u : String) (inp : CreateInput) (s : SysState),
      stepSys (SysOp.createOp efi u inp) s = s) := by
  constructor
  · exact runSys_txIds ops (initState prt) hgood (fun t => t ∈ observedTxIds ops)
      (by intro x hx; simp [initState] at hx) (fun t ht => ht)
  · intro efi u inp s; rfl

/-- A details gateway echoing the requested transaction id back in a
complete confirmed charge. -/
def cexEfiEcho : EfiApi := fun t => .ok { cexDet with txid := t }

/-- `cexEfiEcho` is well-behaved. -/
theorem cexEfiEcho_good : GoodEfi cexEfiEcho := by
  intro t det h
  simp only [cexEfiEcho] at h
  injection h with h'
  rw [← h']

/-- A one-webhook trace for `tx1`. -/
def cexOps : List SysOp := [SysOp.webhookOp cexEfiEcho (some [cexPayload])]

/-- The document materialized by the `cexOps` trace. -/
def cexNewDoc : Donation :=
  { id := some "doc0", donorCPF := some "12345678901", donorName := some "Jane Doe",
    donorCIM := none, amount := some 50, txId := "tx1", locId := some "L1",
    qrCode := some "qr", copyPaste := some "cp", status := "PAGA", createdAt := some 0 }

/-- Witness for C2: in the concrete one-webhook trace, the single
materialized document's `txId` is among the observed webhook ids, and
a concrete charge creation leaves the state unchanged. -/
theorem C2_witness :
    cexNewDoc.txId ∈ observedTxIds cexOps ∧
    stepSys (SysOp.createOp cexCreateEfi "u1" ⟨some "12345678901", some "50"⟩)
      (initState []) = initState [] :=
  ⟨(C2_lazy_materialization cexOps [] (by
      intro op hop
      simp only [cexOps, List.mem_singleton] at hop
      subst hop
      exact cexEfiEcho_good)).1 cexNewDoc (by decide),
   (C2_lazy_materialization cexOps [] (by
      intro op hop
      simp only [cexOps, List.mem_singleton] at hop
      subst hop
      exact cexEfiEcho_good)).2 cexCreateEfi "u1" ⟨some "12345678901", some "50"⟩
      (initState [])⟩

/-! ## C1 — idempotent replay (amended) -/

/-- C1 (amended).  For a confirmed-paid webhook on a fresh transaction
id with complete authoritative data and a subscriber registered on
that id: the first call materializes exactly one `PAGA` record; the
second identical call performs no store write (the store is exactly
the one left by the first call); but each of the two calls delivers
one notification to the subscriber — after the replay the delivery
log holds two events, not one. -/
theorem C1_amended (efi : EfiApi) (p : PixPayload) (st : Store) (sse : SSEState)
    (t vs cpf nm : String) (det : EfiCharge) (q : ℚ) (conn : ℕ)
    (hp : p.txid = some t) (ht : t ≠ "")
    (hfind : findByTxId t st = none)
    (hefi : efi t = .ok det) (hst : det.status = "CONCLUIDA") (htx : det.txid = t)
    (hval : det.valor = some ⟨some vs⟩)
    (hparse : parseFloatChars vs.data = some q) (hq : q ≠ 0)
    (hdev : det.devedor = some ⟨some cpf, some nm⟩) (hcpf : cpf ≠ "") (hnm : nm ≠ "")
    (hsub : sse.clients.lookup t = some conn) :
    ((webhookPixRoute efi (some [p]) st sse).2.1.docs.filter
        (fun d => d.txId == t && d.status == "PAGA")).length = 1 ∧
    (webhookPixRoute efi (some [p])
        (webhookPixRoute efi (some [p]) st sse).2.1
        (webhookPixRoute efi (some [p]) st sse).2.2).2.1 =
      (webhookPixRoute efi (some [p]) st sse).2.1 ∧
    (webhookPixRoute efi (some [p]) st sse).2.2.deliveries =
      sse.deliveries ++ [(conn, t)] ∧
    (webhookPixRoute efi (some [p])
        (webhookPixRoute efi (some [p]) st sse).2.1
        (webhookPixRoute efi (some [p]) st sse).2.2).2.2.deliveries =
      sse.deliveries ++ [(conn, t), (conn, t)] := by
  have ht' : (t == "") = false := beq_eq_false_iff_ne.mpr ht
  -- the materialized in-memory instance and its stored copy
  set dd : Donation :=
    { mkLazyDonation (some cpf) (some nm)
        (truthyOr ((findByExactCPF cpf st).bind (fun pr => pr.cim)))
        (some q) det with
      id := some ("doc" ++ toString st.nextId) } with hdd
  set stored : Donation := { dd with createdAt := some st.now } with hstored
  set st1 : Store :=
    { st with docs := st.docs ++ [stored], nextId := st.nextId + 1 } with hst1
  have hddst : dd.status = "PAGA" := rfl
  have hddtx : dd.txId = t := htx
  have hstoredtx : stored.txId = t := htx
  have hstoredst : stored.status = "PAGA" := rfl
  have hlaztx : (mkLazyDonation (some cpf) (some nm)
      (truthyOr ((findByExactCPF cpf st).bind fun pr => pr.cim))
      (some q) det).txId = t := htx
  -- first handler call: lazy materialization
  have hmain1 : handlePixWebhook efi p st = .ok (some dd, st1) := by
    unfold handlePixWebhook handleConfirmation getPixDetails
    rw [hp]
    have hguard : (!jsTruthy ((det.devedor).bind (fun x => x.cpf)) ||
        !jsTruthy ((det.devedor).bind (fun x => x.nome)) ||
        jsFalsyNum (parseFloatJs (some vs))) = false := by
      have h1 : (cpf == "") = false := beq_eq_false_iff_ne.mpr hcpf
      have h2 : (nm == "") = false := beq_eq_false_iff_ne.mpr hnm
      have h3 : (q == 0) = false := beq_eq_false_iff_ne.mpr hq
      simp [hdev, jsTruthy, h1, h2, jsFalsyNum, parseFloatJs, hparse, h3]
    simp only [ht', Bool.false_eq_true, if_false, hfind, hefi, hval, hst,
      hguard, beq_self_eq_true, if_true, Donation.save, mkLazyDonation]
    rw [hst1, hstored, hdd]
    simp [mkLazyDonation, parseFloatJs, hparse, hdev, Option.some_bind]
  -- first route call
  have hitem1 : List.foldl (processItem efi) (⟨st, 0, [], []⟩ : LoopAcc) [p] =
      ⟨st1, 1, [], [mkSSEMsg dd]⟩ := by
    rw [List.foldl_cons, List.foldl_nil]
    unfold processItem
    rw [hp]
    simp only [ht', Bool.false_eq_true, if_false, hmain1, hddst, beq_self_eq_true,
      if_true]
    rfl
  have hnotif1 : notifyDonationPaid [mkSSEMsg dd] sse =
      { sse with deliveries := sse.deliveries ++ [(conn, t)] } := by
    unfold notifyDonationPaid
    simp only [List.isEmpty_cons, Bool.false_eq_true, if_false, List.foldl_cons,
      List.foldl_nil, mkSSEMsg, hddtx, hlaztx, hsub]
  have hroute1 : webhookPixRoute efi (some [p]) st sse =
      (⟨200, "Pix recebido e processado com sucesso."⟩, st1,
        { sse with deliveries := sse.deliveries ++ [(conn, t)] }) := by
    unfold webhookPixRoute
    simp only [List.isEmpty_cons, Bool.false_eq_true, if_false, hitem1]
    simp [hnotif1]
  -- second handler call: idempotent no-op at the store
  have hfind2 : findByTxId t st1 = some stored := by
    unfold findByTxId at hfind ⊢
    rw [hst1]
    dsimp only
    rw [List.find?_append, hfind, Option.none_or]
    refine List.find?_cons_of_pos _ ?_
    show (stored.txId == t) = true
    rw [hstoredtx]
    exact beq_self_eq_true t
  have hmain2 : handlePixWebhook efi p st1 = .ok (some stored, st1) := by
    unfold handlePixWebhook handleConfirmation getPixDetails
    rw [hp]
    simp only [ht', Bool.false_eq_true, if_false, hfind2, hefi, hval, hst,
      beq_self_eq_true, if_true, hstoredst]
    rfl
  have hitem2 : List.foldl (processItem efi) (⟨st1, 0, [], []⟩ : LoopAcc) [p] =
      ⟨st1, 1, [], [mkSSEMsg stored]⟩ := by
    rw [List.foldl_cons, List.foldl_nil]
    unfold processItem
    rw [hp]
    simp only [ht', Bool.false_eq_true, if_false, hmain2, hstoredst,
      beq_self_eq_true, if_true]
    rfl
  have hclients1 : ({ sse with deliveries := sse.deliveries ++ [(conn, t)] } :
      SSEState).clients.lookup t = some conn := hsub
  have hnotif2 : notifyDonationPaid [mkSSEMsg stored]
      { sse with deliveries := sse.deliveries ++ [(conn, t)] } =
      { sse with deliveries := sse.deliveries ++ [(conn, t), (conn, t)] } := by
    unfold notifyDonationPaid
    simp only [List.isEmpty_cons, Bool.false_eq_true, if_false, List.foldl_cons,
      List.foldl_nil, mkSSEMsg, hstoredtx, hlaztx, hclients1]
    simp
  have hroute2 : webhookPixRoute efi (some [p]) st1
      { sse with deliveries := sse.deliveries ++ [(conn, t)] } =
      (⟨200, "Pix recebido e processado com sucesso."⟩, st1,
        { sse with deliveries := sse.deliveries ++ [(conn, t), (conn, t)] }) := by
    unfold webhookPixRoute
    simp only [List.isEmpty_cons, Bool.false_eq_true, if_false, hitem2]
    simp [hnotif2]
  refine ⟨?_, ?_, ?_, ?_⟩
  · rw [hroute1]
    show ((st1.docs).filter (fun d => d.txId == t && d.status == "PAGA")).length = 1
    rw [hst1]
    dsimp only
    rw [List.filter_append]
    have h0 : st.docs.filter (fun d => d.txId == t && d.status == "PAGA") = [] := by
      rw [List.filter_eq_nil_iff]
      intro a ha
      have hne := List.find?_eq_none.mp (by unfold findByTxId at hfind; exact hfind) a ha
      simp only [Bool.not_eq_true] at hne
      simp [hne]
    rw [h0]
    have hb : ((fun d => d.txId == t && d.status == "PAGA") stored) = true := by
      dsimp only
      rw [hstoredtx, hstoredst]
      simp
    rw [List.nil_append, List.filter_cons, if_pos hb]
    rfl
  · rw [hroute1]
    dsimp only
    rw [hroute2]
  · rw [hroute1]
  · rw [hroute1]
    dsimp only
    rw [hroute2]

/-- Witness for C1 (amended) at the concrete `tx1` scenario. -/
theorem C1_amended_witness :
    (cexRun1.2.1.docs.filter (fun d => d.txId == "tx1" && d.status == "PAGA")).length = 1 ∧
    cexRun2.2.1 = cexRun1.2.1 ∧
    cexRun1.2.2.deliveries = cexSSE.deliveries ++ [(7, "tx1")] ∧
    cexRun2.2.2.deliveries = cexSSE.deliveries ++ [(7, "tx1"), (7, "tx1")] :=
  C1_amended cexEfi cexPayload cexStore cexSSE "tx1" "50.00" "12345678901" "Jane Doe"
    cexDet 50 7 rfl (by decide) (by decide) (by decide) rfl rfl rfl (by decide)
    (by decide) rfl (by decide) (by decide) (by decide)

end Doare
